import Mathlib

/-!
Shallow embedding of the WhatsApp land-records service bot
(webhook controller, message controller, payment controller, and the
JSON-file database service), together with proofs about the behaviour
claimed by the specification.

Modelling conventions:
* JavaScript objects flowing through the webhook are modelled by the
  `Json` inductive; `undefined` is modelled by `Option.none` wherever a
  value can be absent.
* `Date.now()` / `new Date().toISOString()` are modelled by the `now`
  field of the state, and the random id generators by the `ctr` counter
  (the concrete text of a generated id is irrelevant to every property
  proved here; only freshness relative to the call matters).
* Outbound WhatsApp sends never throw in the source (the gateway catches
  every transport error and returns a result object), so a send is
  modelled as appending the `(recipient, payload)` pair to `sent`.
* All file I/O of the database service is modelled by pure state passing
  on the three collections.
-/

namespace ServiceBot

/-- JSON-like values: the shape of webhook request bodies and form data. -/
inductive Json where
  | null
  | bool (b : Bool)
  | num (n : Int)
  | str (s : String)
  | arr (elems : List Json)
  | obj (fields : List (String × Json))

/-- Property lookup on an object; `none` models JavaScript `undefined`. -/
def Json.field : Json → String → Option Json
  | Json.obj kvs, k => kvs.lookup k
  | _, _ => none

/-- JavaScript truthiness of a value. -/
def Json.truthy : Json → Bool
  | Json.null => false
  | Json.bool b => b
  | Json.num n => n != 0
  | Json.str s => s != ""
  | Json.arr _ => true
  | Json.obj _ => true

/-- Optional chaining `v?.k` on a value: `null` short-circuits to `undefined`. -/
def jsOptChain (j : Json) (k : String) : Option Json :=
  match j with
  | Json.null => none
  | _ => j.field k

/-- Optional chaining `o?.k` when the receiver may itself be `undefined`. -/
def jsOptChainO (o : Option Json) (k : String) : Option Json :=
  match o with
  | none => none
  | some j => jsOptChain j k

/-- Truthiness of a possibly-undefined value. -/
def jsTruthyO : Option Json → Bool
  | none => false
  | some j => j.truthy

/-- Truthiness of a possibly-undefined string (query/body parameter). -/
def truthyStr : Option String → Bool
  | none => false
  | some s => s != ""

/-- JavaScript String.prototype.toLowerCase, modelled characterwise over
the character list (the inputs routed here are ASCII command words). -/
def jsToLowerCase (s : String) : String :=
  String.mk (s.data.map Char.toLower)

/-- ASCII whitespace stripped by JavaScript String.prototype.trim. -/
def isJsSpace (c : Char) : Bool :=
  c = ' ' || c = '\t' || c = '\n' || c = '\r'

/-- JavaScript String.prototype.trim: strip leading and trailing
whitespace. -/
def jsTrim (s : String) : String :=
  String.mk (((s.data.dropWhile isJsSpace).reverse.dropWhile isJsSpace).reverse)

/-- String interpolation of a possibly-undefined string, as JavaScript
template literals render it. -/
def showOpt : Option String → String
  | some s => s
  | none => "undefined"

/-- A stored user record (users.json). -/
structure User where
  id : String
  whatsappId : String
  phoneNumber : String
  lastSeen : Option String := none
  lastMessage : Option Json := none
  createdAt : String
  updatedAt : String

/-- Member names a plain object literal inherits from Object.prototype;
a bracket lookup that misses the table's own keys continues on the
prototype chain and finds these. -/
def objectProtoMembers : List String :=
  ["constructor", "hasOwnProperty", "isPrototypeOf", "propertyIsEnumerable",
   "toLocaleString", "toString", "valueOf", "__proto__",
   "__defineGetter__", "__defineSetter__", "__lookupGetter__", "__lookupSetter__"]

/-- The value a price lookup can produce: a number (an own price or the
100 fallback), or the truthy member inherited from Object.prototype that
the bracket lookup finds for names such as "constructor". The type has
no null/undefined constructor, reflecting that the lookup never yields
either. -/
inductive JsAmount where
  | num (n : Int)
  | protoMember (name : String)
deriving Repr, DecidableEq

/-- Template-literal rendering of an amount: a number prints its digits;
an inherited member prints its host string form, summarised here by the
member name (no property proved below inspects this text). -/
def JsAmount.display : JsAmount → String
  | JsAmount.num n => toString n
  | JsAmount.protoMember name => "[Object.prototype." ++ name ++ "]"

/-- A stored order record (orders.json). -/
structure Order where
  id : String
  orderId : String
  whatsappId : String
  serviceType : Option String := none
  userData : Json := Json.obj []
  amount : JsAmount := JsAmount.num 0
  status : String
  paymentStatus : String
  paymentId : Option String := none
  createdAt : String
  updatedAt : String
  completedAt : Option String := none
  failedAt : Option String := none

/-- A stored session record (sessions.json). -/
structure Session where
  id : String
  whatsappId : String
  step : Option String := none
  selectedService : Option String := none
  serviceName : Option String := none
  orderId : Option String := none
  createdAt : String
  updatedAt : String
  completedAt : Option String := none

/-- The caller-supplied object passed to `database.createOrder`; fields the
call sites may or may not include are optional. -/
structure OrderData where
  orderId : Option String := none
  whatsappId : String := ""
  serviceType : Option String := none
  userData : Json := Json.obj []
  amount : JsAmount := JsAmount.num 0
  status : Option String := none
  paymentStatus : Option String := none
  createdAt : Option String := none
  updatedAt : Option String := none

/-- The `updates` object passed to `database.updateOrder` (spread-merged
over the stored order). -/
structure OrderPatch where
  status : Option String := none
  paymentStatus : Option String := none
  paymentId : Option String := none
  completedAt : Option String := none
  failedAt : Option String := none

/-- The `sessionData` object passed to `database.createOrUpdateSession`
(spread-merged over the stored session when it exists). -/
structure SessionPatch where
  id : Option String := none
  whatsappId : Option String := none
  step : Option String := none
  selectedService : Option String := none
  serviceName : Option String := none
  orderId : Option String := none
  createdAt : Option String := none
  updatedAt : Option String := none
  completedAt : Option String := none

/-- Environment configuration (process.env) plus the host JSON parser. -/
structure Config where
  verifyToken : Option String := none
  baseUrl : Option String := none
  flowId8A : Option String := none
  flowId712 : Option String := none
  flowIdFerfar : Option String := none
  flowIdProperty : Option String := none
  jsonParse : String → Option Json := fun _ => none

/-- Whole-system state: the three JSON collections, the log of outbound
sent messages, the clock and the id counter. -/
structure St where
  users : List User := []
  orders : List Order := []
  sessions : List Session := []
  sent : List (String × Json) := []
  now : String := "2024-01-15T10:00:00.000Z"
  ctr : Nat := 0

/-- Generate a fresh id with the given marker (models the
`prefix_timestamp_random` generators). -/
def genId (st : St) (marker : String) : String × St :=
  (marker ++ "_" ++ toString st.ctr, { st with ctr := st.ctr + 1 })

/-- Replace the first element satisfying the predicate (models
`findIndex` followed by in-place assignment and write-back). -/
def updateFirst (p : α → Bool) (f : α → α) : List α → List α
  | [] => []
  | x :: xs => if p x then f x :: xs else x :: updateFirst p f xs

/-- database.findOrderByOrderId. -/
def findOrderByOrderId (st : St) (orderId : String) : Option Order :=
  st.orders.find? (fun o => o.orderId == orderId)

/-- Spread-merge `updates` over a stored order, then stamp `updatedAt`
(`\x7b...order, ...updates, updatedAt: now\x7d`). -/
def Order.applyPatch (o : Order) (p : OrderPatch) (now : String) : Order :=
  { o with
    status := p.status.getD o.status
    paymentStatus := p.paymentStatus.getD o.paymentStatus
    paymentId := p.paymentId <|> o.paymentId
    completedAt := p.completedAt <|> o.completedAt
    failedAt := p.failedAt <|> o.failedAt
    updatedAt := now }

/-- database.updateOrder: merge `updates` into the first order whose
`orderId` matches; no-op when no order matches. -/
def updateOrder (st : St) (orderId : String) (p : OrderPatch) : St :=
  { st with
    orders := updateFirst (fun o => o.orderId == orderId)
      (fun o => o.applyPatch p st.now) st.orders }

/-- database.createOrder. The `id`/`orderId` defaults are computed first,
then `orderData` is spread over them, and finally the literal
`createdAt`/`updatedAt`/`status`/`paymentStatus` fields are written, so
those four always take the fresh values. -/
def createOrder (st : St) (d : OrderData) : Order × St :=
  let (oid, st1) := genId st "order"
  let (gord, st2) := genId st1 "ORD"
  let o : Order :=
    { id := oid
      orderId := d.orderId.getD gord
      whatsappId := d.whatsappId
      serviceType := d.serviceType
      userData := d.userData
      amount := d.amount
      createdAt := st2.now
      updatedAt := st2.now
      status := "pending"
      paymentStatus := "pending" }
  (o, { st2 with orders := st2.orders ++ [o] })

/-- database.findSessionByWhatsappId. -/
def findSessionByWhatsappId (st : St) (whatsappId : String) : Option Session :=
  st.sessions.find? (fun s => s.whatsappId == whatsappId)

/-- Spread-merge `updates` over a stored session, then stamp `updatedAt`. -/
def Session.applyPatch (s : Session) (p : SessionPatch) (now : String) : Session :=
  { id := p.id.getD s.id
    whatsappId := p.whatsappId.getD s.whatsappId
    step := p.step <|> s.step
    selectedService := p.selectedService <|> s.selectedService
    serviceName := p.serviceName <|> s.serviceName
    orderId := p.orderId <|> s.orderId
    createdAt := p.createdAt.getD s.createdAt
    updatedAt := now
    completedAt := p.completedAt <|> s.completedAt }

/-- database.updateSession. -/
def updateSession (st : St) (whatsappId : String) (p : SessionPatch) : St :=
  { st with
    sessions := updateFirst (fun s => s.whatsappId == whatsappId)
      (fun s => s.applyPatch p st.now) st.sessions }

/-- database.createSession: generated id first, `sessionData` spread over
it, then the literal `createdAt`/`updatedAt` stamps. -/
def createSession (st : St) (p : SessionPatch) : Session × St :=
  let (sid, st1) := genId st "session"
  let s : Session :=
    { id := p.id.getD sid
      whatsappId := p.whatsappId.getD ""
      step := p.step
      selectedService := p.selectedService
      serviceName := p.serviceName
      orderId := p.orderId
      createdAt := st1.now
      updatedAt := st1.now
      completedAt := p.completedAt }
  (s, { st1 with sessions := st1.sessions ++ [s] })

/-- database.createOrUpdateSession. -/
def createOrUpdateSession (st : St) (whatsappId : String) (p : SessionPatch) : St :=
  match findSessionByWhatsappId st whatsappId with
  | some _ => updateSession st whatsappId p
  | none => (createSession st p).2

/-- Convert a stored session into the spread `\x7b...session\x7d` used by
handleFlowCompletion when it re-upserts the session. -/
def sessionSpread (s : Session) : SessionPatch :=
  { id := some s.id
    whatsappId := some s.whatsappId
    step := s.step
    selectedService := s.selectedService
    serviceName := s.serviceName
    orderId := s.orderId
    createdAt := some s.createdAt
    updatedAt := some s.updatedAt
    completedAt := s.completedAt }

/-- database.upsertUser as invoked by handleMessage (userData is always
the whatsappId/phoneNumber/lastSeen/lastMessage record there). -/
def upsertUserOnMessage (st : St) (waId : String) (messageText : Option Json) : St :=
  match st.users.find? (fun u => u.whatsappId == waId) with
  | some _ =>
    { st with
      users := updateFirst (fun u => u.whatsappId == waId)
        (fun u =>
          { u with
            whatsappId := waId
            phoneNumber := waId
            lastSeen := some st.now
            lastMessage := messageText
            updatedAt := st.now }) st.users }
  | none =>
    let (uid, st1) := genId st "user"
    { st1 with
      users := st1.users ++
        [{ id := uid
           whatsappId := waId
           phoneNumber := waId
           lastSeen := some st.now
           lastMessage := messageText
           createdAt := st.now
           updatedAt := st.now }] }

/-- whatsappService.sendMessage: the gateway never throws; a call is one
appended (recipient, payload) record. -/
def sendMessage (st : St) (recipient : String) (message : Json) : St :=
  { st with sent := st.sent ++ [(recipient, message)] }

/-- The payload `\x7btype: "text", text: \x7bbody\x7d\x7d` built by
whatsappService.sendTextMessage. -/
def textPayload (body : String) : Json :=
  Json.obj [("type", Json.str "text"), ("text", Json.obj [("body", Json.str body)])]

/-- whatsappService.sendTextMessage. -/
def sendTextMessage (st : St) (recipient : String) (text : String) : St :=
  sendMessage st recipient (textPayload text)

/-- whatsappService.sendPaymentLink: one formatted text message. -/
def sendPaymentLink (st : St) (recipient : String) (orderId service : String)
    (amount : JsAmount) (paymentLink : String) : St :=
  sendTextMessage st recipient
    ("Payment Required\n\n" ++
     "Service: " ++ service ++ "\n" ++
     "Amount: Rs." ++ amount.display ++ "\n" ++
     "Order ID: " ++ orderId ++ "\n\n" ++
     "Please pay using this link:\n" ++ paymentLink ++ "\n\n" ++
     "After payment, you\x27ll receive confirmation here.")

/-- welcome.template.js: the interactive four-button welcome message. -/
def welcomeMessage : Json :=
  Json.obj
    [("type", Json.str "interactive"),
     ("interactive", Json.obj
       [("type", Json.str "button"),
        ("header", Json.obj [("type", Json.str "text"),
          ("text", Json.str "Welcome to Land Record Services")]),
        ("body", Json.obj [("text", Json.str
          "Hello! I\x27m here to help you with land record services. Please choose the service you need from the options below:")]),
        ("action", Json.obj
          [("buttons", Json.arr
            [Json.obj [("type", Json.str "reply"), ("reply", Json.obj
              [("id", Json.str "8a_service"), ("title", Json.str "8A Form")])],
             Json.obj [("type", Json.str "reply"), ("reply", Json.obj
              [("id", Json.str "712_service"), ("title", Json.str "7/12 Form")])],
             Json.obj [("type", Json.str "reply"), ("reply", Json.obj
              [("id", Json.str "ferfar_service"), ("title", Json.str "Ferfar")])],
             Json.obj [("type", Json.str "reply"), ("reply", Json.obj
              [("id", Json.str "property_card_service"), ("title", Json.str "Property Card")])]])])])]

/-- MessageController.getServiceAmount: `amounts[serviceName] || 100`.
The bracket lookup tries the table's own keys first (the four prices),
then the prototype chain: for a member name inherited from
Object.prototype it yields that truthy member, so `|| 100` never fires
there; only a complete miss (undefined, falsy) takes the 100 fallback.
All listed prices are truthy, so the fallback fires exactly on complete
misses. -/
def getServiceAmount (serviceName : String) : JsAmount :=
  if serviceName = "8A Form" then JsAmount.num 500
  else if serviceName = "7/12 Form" then JsAmount.num 300
  else if serviceName = "Ferfar" then JsAmount.num 400
  else if serviceName = "Property Card" then JsAmount.num 250
  else if serviceName ∈ objectProtoMembers then JsAmount.protoMember serviceName
  else JsAmount.num 100

/-- getServiceAmount applied to a possibly-undefined session field; the
`undefined` key is coerced to the string "undefined", which misses both
the table and the prototype members, so the fallback applies. -/
def getServiceAmountFor : Option String → JsAmount
  | some s => getServiceAmount s
  | none => getServiceAmount "undefined"

/-- MessageController.buildFlowMessage: the interactive flow-trigger
payload; flow ids come from the environment with fixed fallbacks. -/
def buildFlowMessage (cfg : Config) (st : St) (serviceId serviceName : String) : Json :=
  let flowId : Json :=
    if serviceId = "8a_service" then Json.str (cfg.flowId8A.getD "1234567890")
    else if serviceId = "712_service" then Json.str (cfg.flowId712.getD "1234567891")
    else if serviceId = "ferfar_service" then Json.str (cfg.flowIdFerfar.getD "1234567892")
    else if serviceId = "property_card_service" then Json.str (cfg.flowIdProperty.getD "1234567893")
    else Json.null
  Json.obj
    [("type", Json.str "interactive"),
     ("interactive", Json.obj
       [("type", Json.str "flow"),
        ("header", Json.obj [("type", Json.str "text"), ("text", Json.str serviceName)]),
        ("body", Json.obj [("text", Json.str
          ("Please fill out the " ++ serviceName ++ " form to proceed with your application."))]),
        ("footer", Json.obj [("text", Json.str "Your data is secure and encrypted.")]),
        ("action", Json.obj
          [("name", Json.str "flow"),
           ("parameters", Json.obj
             [("flow_message_version", Json.str "3"),
              ("flow_action", Json.str "navigate"),
              ("flow_id", flowId),
              ("flow_cta", Json.str "Start Form"),
              ("flow_token", Json.str ("token_" ++ st.now ++ "_" ++ serviceId))])])])]

/-- MessageController.triggerServiceFlow: upsert the session to the
form-filling step, then send the flow-trigger message. -/
def triggerServiceFlow (cfg : Config) (st : St) (whatsappId serviceId serviceName : String) : St :=
  let st1 := createOrUpdateSession st whatsappId
    { whatsappId := some whatsappId
      step := some "awaiting_flow_completion"
      selectedService := some serviceId
      serviceName := some serviceName
      createdAt := some st.now }
  sendMessage st1 whatsappId (buildFlowMessage cfg st1 serviceId serviceName)

/-- MessageController.handleMessage: upsert the user, normalise the text
and route on the fixed command table. A non-string message text makes
`toLowerCase` throw inside the try-block, which the handler catches by
sending its generic error reply. -/
def handleMessage (cfg : Config) (st : St) (waId : String) (messageText : Option Json) : St :=
  let st0 := upsertUserOnMessage st waId messageText
  match messageText with
  | some (Json.str sTxt) =>
    let text := jsTrim (jsToLowerCase sTxt)
    if text = "hi" ∨ text = "hello" ∨ text = "start" then
      sendMessage st0 waId welcomeMessage
    else if text = "8a_service" ∨ text = "8a" ∨ text = "8a form" then
      triggerServiceFlow cfg st0 waId "8a_service" "8A Form"
    else if text = "712_service" ∨ text = "712" ∨ text = "7/12" then
      triggerServiceFlow cfg st0 waId "712_service" "7/12 Form"
    else if text = "ferfar_service" ∨ text = "ferfar" then
      triggerServiceFlow cfg st0 waId "ferfar_service" "Ferfar"
    else if text = "property_card_service" ∨ text = "property" ∨ text = "property card" then
      triggerServiceFlow cfg st0 waId "property_card_service" "Property Card"
    else
      sendTextMessage st0 waId "I didn\x27t understand that. Type \"hi\" to see available services."
  | _ =>
    sendTextMessage st0 waId "Sorry, I encountered an error. Please try again or send \"hi\" to restart."

/-- MessageController.handleFlowCompletion: look up the session (absent →
one session-expired message and stop), create the order, move the session
to awaiting_payment, then send the summary text and the payment link. -/
def handleFlowCompletion (cfg : Config) (st : St) (whatsappId : String)
    (flowToken flowData : Json) : St :=
  match findSessionByWhatsappId st whatsappId with
  | none =>
    sendTextMessage st whatsappId "Session expired. Please start over by sending \"hi\"."
  | some session =>
    let (newOrd, st1) := genId st "ORD"
    let (order, st2) := createOrder st1
      { orderId := some newOrd
        whatsappId := whatsappId
        serviceType := session.serviceName
        userData := flowData
        amount := getServiceAmountFor session.serviceName
        status := some "pending"
        paymentStatus := some "pending"
        createdAt := some st1.now }
    let st3 := createOrUpdateSession st2 whatsappId
      { sessionSpread session with
        step := some "awaiting_payment"
        orderId := some order.orderId }
    let baseUrl := cfg.baseUrl.getD "http://localhost:3000"
    let paymentLink := baseUrl ++ "/payment/checkout?orderId=" ++ order.orderId ++
      "&whatsappId=" ++ whatsappId
    let st4 := sendTextMessage st3 whatsappId
      ("Thank you for filling the form!\n\n" ++
       "Order ID: " ++ order.orderId ++ "\n" ++
       "Service: " ++ showOpt session.serviceName ++ "\n" ++
       "Amount: Rs." ++ order.amount.display ++ "\n\n" ++
       "Click below to proceed with payment:")
    sendPaymentLink st4 whatsappId order.orderId (showOpt session.serviceName)
      order.amount paymentLink

/-- An HTTP response of the payment controller: a JSON error body or a
rendered HTML page (pages identified by a short tag; their static markup
carries no state). -/
inductive HttpResp where
  | json (status : Nat) (error : String)
  | html (status : Nat) (page : String)
deriving Repr, DecidableEq

/-- Status code of a payment-controller response. -/
def HttpResp.statusCode : HttpResp → Nat
  | HttpResp.json s _ => s
  | HttpResp.html s _ => s

/-- PaymentController.verifyPaymentSignature: the source is an explicit
stub (`return true // Accept all in test mode`) with the real HMAC check
left as a TODO comment. -/
def verifyPaymentSignature (orderId paymentId signature : String) : Bool :=
  true

/-- PaymentController.sendPaymentConfirmation: one confirmation text. -/
def sendPaymentConfirmation (st : St) (whatsappId : String) (order : Order) : St :=
  sendTextMessage st whatsappId
    ("Payment Successful!\n\n" ++
     "Order ID: " ++ order.orderId ++ "\n" ++
     "Service: " ++ showOpt order.serviceType ++ "\n" ++
     "Amount: Rs." ++ order.amount.display ++ "\n" ++
     "Date: " ++ st.now ++ "\n\n" ++
     "Your application has been received. We\x27ll process it within 24 hours.")

/-- PaymentController.handleSuccess. Query parameters orderId, paymentId
and signature, and the body parameter mock, are each possibly absent.
The mock branch updates the order and sends the confirmation, then
returns its page immediately; the non-mock path verifies the signature
only when both paymentId and signature are truthy, then updates the
order, sends the confirmation and upserts the session to completed. -/
def handleSuccess (st : St) (orderId paymentId signature mock : Option String) :
    HttpResp × St :=
  if ¬ truthyStr orderId then
    (HttpResp.json 400 "Missing orderId", st)
  else
    let oid := orderId.getD ""
    match findOrderByOrderId st oid with
    | none => (HttpResp.json 404 "Order not found", st)
    | some order =>
      if mock = some "true" then
        let st1 := updateOrder st oid
          { status := some "completed"
            paymentStatus := some "captured"
            paymentId := some (if truthyStr paymentId then paymentId.getD "" else "mock_" ++ st.now)
            completedAt := some st.now }
        let st2 := sendPaymentConfirmation st1 order.whatsappId order
        (HttpResp.html 200 "payment-success-mock", st2)
      else
        let proceed : St → HttpResp × St := fun stA =>
          let stB := updateOrder stA oid
            { status := some "completed"
              paymentStatus := some "captured"
              paymentId := some (if truthyStr paymentId then paymentId.getD "" else "razorpay_payment_id")
              completedAt := some stA.now }
          let stC := sendPaymentConfirmation stB order.whatsappId order
          let stD := createOrUpdateSession stC order.whatsappId
            { whatsappId := some order.whatsappId
              step := some "completed"
              orderId := some oid
              completedAt := some stC.now }
          (HttpResp.html 200 "payment-success", stD)
        if truthyStr paymentId ∧ truthyStr signature then
          if verifyPaymentSignature oid (paymentId.getD "") (signature.getD "") then
            proceed st
          else
            (HttpResp.json 400 "Payment verification failed", st)
        else
          proceed st

/-- PaymentController.handleFailure: when orderId is truthy, merge the
failed status into the matching order and notify the user if the order is
found; always render the failure page. -/
def handleFailure (st : St) (orderId : Option String) : HttpResp × St :=
  if truthyStr orderId then
    let oid := orderId.getD ""
    let st1 := updateOrder st oid
      { status := some "failed", paymentStatus := some "failed", failedAt := some st.now }
    let st2 :=
      match findOrderByOrderId st1 oid with
      | some order =>
        sendTextMessage st1 order.whatsappId
          ("Payment failed for order " ++ oid ++ ". Please try again or contact support.")
      | none => st1
    (HttpResp.html 200 "payment-failure", st2)
  else
    (HttpResp.html 200 "payment-failure", st)

/-- Response of the webhook verification gate. -/
structure VerifyResult where
  status : Nat
  body : Option String
deriving Repr, DecidableEq

/-- WebhookController.verify: echo the challenge iff the mode is
"subscribe" and the provided token strictly equals the configured
VERIFY_TOKEN; otherwise 403. The comparison is JavaScript `===` on the
raw query values, modelled by `Option String` equality. -/
def verify (verifyToken : Option String) (mode token challenge : Option String) :
    VerifyResult :=
  if mode = some "subscribe" ∧ token = verifyToken then
    { status := 200, body := challenge }
  else
    { status := 403, body := none }

/-- WebhookController.parseFlowResponse: parse a string payload with the
host JSON parser, degrading to the empty object on a parse error; pass
non-strings through unchanged. -/
def parseFlowResponse (cfg : Config) (responseJson : Json) : Json :=
  match responseJson with
  | Json.str s => (cfg.jsonParse s).getD (Json.obj [])
  | j => j

/-- Dispatch of one message record inside the per-message try-block of
WebhookController.handleIncomingMessages. Accesses that raise a
TypeError inside the try (message.text.body or message.button.text on a
missing/null container) are caught there before any effect, leaving the
state unchanged. -/
def dispatchMessage (cfg : Config) (st : St) (m : Json) : St :=
  let sender :=
    match m.field "from" with
    | some (Json.str s) => s
    | _ => "undefined"
  match m.field "type" with
  | some (Json.str "text") =>
    (match m.field "text" with
     | none => st
     | some Json.null => st
     | some t => handleMessage cfg st sender (t.field "body"))
  | some (Json.str "interactive") =>
    let inter :=
      match m.field "interactive" with
      | some j => if j.truthy then j else Json.obj []
      | none => Json.obj []
    let a := jsOptChainO (inter.field "button_reply") "id"
    let b := jsOptChainO (inter.field "list_reply") "id"
    let replyId := if jsTruthyO a then a else b
    let flowResponse := jsOptChainO (inter.field "nfm_reply") "response_json"
    if jsTruthyO flowResponse then
      let fr := flowResponse.getD Json.null
      handleFlowCompletion cfg st sender fr (parseFlowResponse cfg fr)
    else if jsTruthyO replyId then
      handleMessage cfg st sender replyId
    else
      st
  | some (Json.str "button") =>
    (match m.field "button" with
     | none => st
     | some Json.null => st
     | some b => handleMessage cfg st sender (b.field "text"))
  | _ =>
    sendTextMessage st sender
      "I can only process text messages and forms right now. Please send \"hi\" to start."

/-- WebhookController.handleIncomingMessages: each record is processed in
turn; the `message.from` log access sits before the per-message
try-block, so a null record raises out of the loop (Except.error carries
the state at the point of the escape). -/
def runMessages (cfg : Config) (st : St) : List Json → Except St St
  | [] => Except.ok st
  | m :: rest =>
    match m with
    | Json.null => Except.error st
    | _ => runMessages cfg (dispatchMessage cfg st m) rest

/-- WebhookController.handleStatusUpdates: log-only; `status.id` on a
null record raises out of the loop. -/
def runStatusUpdates (st : St) : List Json → Except St St
  | [] => Except.ok st
  | s :: rest =>
    match s with
    | Json.null => Except.error st
    | _ => runStatusUpdates st rest

/-- WebhookController.handleErrors: log-only; a null element raises. -/
def runErrors (st : St) (errs : Json) : Except St St :=
  let es := match errs with
    | Json.arr l => l
    | e => [e]
  if es.any (fun e => match e with | Json.null => true | _ => false) then
    Except.error st
  else
    Except.ok st

/-- Routing of one change-set value by event kind. -/
def dispatchValue (cfg : Config) (st : St) (v : Json) : Except St St :=
  match v.field "messages" with
  | some (Json.arr ms) => runMessages cfg st ms
  | _ =>
    match v.field "statuses" with
    | some (Json.arr sts) => runStatusUpdates st sts
    | _ =>
      match v.field "errors" with
      | some errs => if errs.truthy then runErrors st errs else Except.ok st
      | none => Except.ok st

/-- One change inside an entry: skipped when `change?.value` is falsy. -/
def processChange (cfg : Config) (st : St) (c : Json) : Except St St :=
  match jsOptChain c "value" with
  | some v => if v.truthy then dispatchValue cfg st v else Except.ok st
  | none => Except.ok st

/-- The changes of one entry, in order. -/
def processChanges (cfg : Config) (st : St) : List Json → Except St St
  | [] => Except.ok st
  | c :: rest =>
    match processChange cfg st c with
    | Except.error st1 => Except.error st1
    | Except.ok st1 => processChanges cfg st1 rest

/-- One entry: skipped when `entry?.changes` is not an array. -/
def processEntry (cfg : Config) (st : St) (e : Json) : Except St St :=
  match jsOptChain e "changes" with
  | some (Json.arr cs) => processChanges cfg st cs
  | _ => Except.ok st

/-- The entry list of one delivery, in order. -/
def processEntries (cfg : Config) (st : St) : List Json → Except St St
  | [] => Except.ok st
  | e :: rest =>
    match processEntry cfg st e with
    | Except.error st1 => Except.error st1
    | Except.ok st1 => processEntries cfg st1 rest

/-- The acknowledgement response of the webhook POST handler. -/
structure HttpAck where
  status : Nat
  body : String
deriving Repr, DecidableEq

/-- WebhookController.handleWebhook: if `req.body?.entry` is not an
array, acknowledge immediately; otherwise process every entry, and
acknowledge with 200 "EVENT_RECEIVED" whether processing completed or an
exception was caught. -/
def handleWebhook (cfg : Config) (st : St) (body : Json) : HttpAck × St :=
  match jsOptChain body "entry" with
  | some (Json.arr entries) =>
    (match processEntries cfg st entries with
     | Except.ok st1 => ({ status := 200, body := "EVENT_RECEIVED" }, st1)
     | Except.error st1 => ({ status := 200, body := "EVENT_RECEIVED" }, st1))
  | _ => ({ status := 200, body := "EVENT_RECEIVED" }, st)

end ServiceBot

namespace ServiceBot

/-! ### Helper lemmas and concrete fixtures -/

/-- Sending a message changes only the sent log. -/
theorem findSession_sendMessage (st : St) (r : String) (m : Json) (u : String) :
    findSessionByWhatsappId (sendMessage st r m) u = findSessionByWhatsappId st u := rfl

/-- find? commutes with updateFirst when the update preserves the predicate. -/
theorem find?_updateFirst (p : α → Bool) (f : α → α) (l : List α)
    (hf : ∀ a, p a = true → p (f a) = true) :
    (updateFirst p f l).find? p = (l.find? p).map f := by
  induction l with
  | nil => rfl
  | cons x xs ih =>
    by_cases h : p x = true
    · simp [updateFirst, h, hf x h]
    · simp [updateFirst, h, ih]

/-- After createOrUpdateSession keyed by the patch whatsappId, the session
looked up under that key carries every field the patch sets. -/
theorem findSession_upsert_fields (st : St) (uid : String) (q : SessionPatch)
    (hw : q.whatsappId = some uid) :
    ∃ s, findSessionByWhatsappId (createOrUpdateSession st uid q) uid = some s ∧
      (q.step.isSome → s.step = q.step) ∧
      (q.selectedService.isSome → s.selectedService = q.selectedService) ∧
      (q.serviceName.isSome → s.serviceName = q.serviceName) := by
  unfold createOrUpdateSession
  cases hfind : findSessionByWhatsappId st uid with
  | none =>
    unfold findSessionByWhatsappId at hfind ⊢
    have hsess : (createSession st q).2.sessions =
        st.sessions ++ [(createSession st q).1] := rfl
    rw [hsess, List.find?_append, hfind, Option.none_or]
    have hpw : (createSession st q).1.whatsappId = uid := by
      simp [createSession, genId, hw]
    have hone : ([(createSession st q).1].find? fun s => s.whatsappId == uid) =
        some (createSession st q).1 := by
      simp [List.find?, hpw]
    rw [hone]
    exact ⟨(createSession st q).1, rfl, fun _ => rfl, fun _ => rfl, fun _ => rfl⟩
  | some s0 =>
    unfold findSessionByWhatsappId at hfind
    unfold findSessionByWhatsappId updateSession
    rw [find?_updateFirst (fun s => s.whatsappId == uid)
      (fun s => s.applyPatch q st.now) st.sessions
      (by intro a _; simp [Session.applyPatch, hw])]
    rw [hfind]
    refine ⟨s0.applyPatch q st.now, rfl, ?_, ?_, ?_⟩
    · intro hs
      cases hq : q.step with
      | none => rw [hq] at hs; cases hs
      | some v => simp [Session.applyPatch, hq]
    · intro hs
      cases hq : q.selectedService with
      | none => rw [hq] at hs; cases hs
      | some v => simp [Session.applyPatch, hq]
    · intro hs
      cases hq : q.serviceName with
      | none => rw [hq] at hs; cases hs
      | some v => simp [Session.applyPatch, hq]

/-- Starting a service flow leaves the session at the form-filling step
with the selected service recorded, from any prior state. -/
theorem trigger_session_state (cfg : Config) (st : St) (uid sid sname : String) :
    ∃ s, findSessionByWhatsappId (triggerServiceFlow cfg st uid sid sname) uid = some s ∧
      s.step = some "awaiting_flow_completion" ∧ s.selectedService = some sid ∧
      s.serviceName = some sname := by
  unfold triggerServiceFlow
  rw [findSession_sendMessage]
  obtain ⟨s, hs, h1, h2, h3⟩ := findSession_upsert_fields st uid
    { whatsappId := some uid
      step := some "awaiting_flow_completion"
      selectedService := some sid
      serviceName := some sname
      createdAt := some st.now } rfl
  exact ⟨s, hs, h1 rfl, h2 rfl, h3 rfl⟩

/-- Default configuration and an empty store. -/
def cfg0 : Config := {}

/-- Empty initial state. -/
def emptySt : St := {}

/-- A pending order for user 919876543210, as the flow would create it. -/
def pendingOrder : Order :=
  { id := "order_0"
    orderId := "ORD_1"
    whatsappId := "919876543210"
    serviceType := some "8A Form"
    userData := Json.obj [("name", Json.str "John")]
    amount := JsAmount.num 500
    status := "pending"
    paymentStatus := "pending"
    createdAt := "2024-01-15T10:00:00.000Z"
    updatedAt := "2024-01-15T10:00:00.000Z" }

/-- The session of that user while the payment is outstanding. -/
def awaitingSession : Session :=
  { id := "session_0"
    whatsappId := "919876543210"
    step := some "awaiting_payment"
    selectedService := some "8a_service"
    serviceName := some "8A Form"
    orderId := some "ORD_1"
    createdAt := "2024-01-15T10:00:00.000Z"
    updatedAt := "2024-01-15T10:00:00.000Z" }

/-- Store holding the pending order and its session. -/
def paySt : St :=
  { orders := [pendingOrder]
    sessions := [awaitingSession]
    now := "2024-01-15T11:00:00.000Z" }

/-- An order that already completed with a captured payment. -/
def completedOrder : Order :=
  { pendingOrder with
    status := "completed"
    paymentStatus := "captured"
    paymentId := some "PAY_1" }

/-- Store holding only the completed order. -/
def c9St : St :=
  { orders := [completedOrder]
    now := "2024-01-15T12:00:00.000Z" }

end ServiceBot

namespace ServiceBot

/-! ### Claim theorems -/

/-- C1 (amended): for every user, invoking the start-service-flow
procedure from any prior session state leaves the session with step
"awaiting_flow_completion" (the string the code stores; the claim said
"awaiting_form_completion"), selectedService the selected identifier and
serviceName its human-readable name; in particular after user
919876543210 sends "8a_service". -/
theorem C1_start_flow (cfg : Config) (st : St) (uid sid sname : String) :
    (∃ s, findSessionByWhatsappId (triggerServiceFlow cfg st uid sid sname) uid = some s ∧
        s.step = some "awaiting_flow_completion" ∧ s.selectedService = some sid ∧
        s.serviceName = some sname) ∧
    (∃ s, findSessionByWhatsappId
        (handleMessage cfg st "919876543210" (some (Json.str "8a_service"))) "919876543210" =
          some s ∧
        s.step = some "awaiting_flow_completion" ∧ s.selectedService = some "8a_service" ∧
        s.serviceName = some "8A Form") := by
  constructor
  · exact trigger_session_state cfg st uid sid sname
  · have hred : handleMessage cfg st "919876543210" (some (Json.str "8a_service")) =
        triggerServiceFlow cfg
          (upsertUserOnMessage st "919876543210" (some (Json.str "8a_service")))
          "919876543210" "8a_service" "8A Form" := rfl
    rw [hred]
    exact trigger_session_state cfg _ "919876543210" "8a_service" "8A Form"

/-- C1 (counterexample): after user 919876543210 sends "8a_service" the
stored step is "awaiting_flow_completion", so it is not the claimed
"awaiting_form_completion". -/
theorem C1_cex :
    ¬ ((findSessionByWhatsappId
        (handleMessage cfg0 emptySt "919876543210" (some (Json.str "8a_service")))
        "919876543210").map Session.step = some (some "awaiting_form_completion")) := by
  intro h
  have hval : (findSessionByWhatsappId
      (handleMessage cfg0 emptySt "919876543210" (some (Json.str "8a_service")))
      "919876543210").map Session.step = some (some "awaiting_flow_completion") := rfl
  exact absurd (hval.symm.trans h) (by decide)

/-- C2 (code evaluated at the failing input): a non-mock success callback
carrying a forged signature for an existing pending order is accepted:
verifyPaymentSignature is a stub returning true for every input, so the
handler renders the success page and transitions the order to
completed/captured instead of rejecting the forgery and leaving the
order untouched. -/
theorem C2_forged_signature_accepted :
    verifyPaymentSignature "ORD_1" "PAY_9" "forged" = true ∧
    (handleSuccess paySt (some "ORD_1") (some "PAY_9") (some "forged") none).1 =
      HttpResp.html 200 "payment-success" ∧
    ((handleSuccess paySt (some "ORD_1") (some "PAY_9") (some "forged") none).2.orders.map
      Order.status) = ["completed"] ∧
    ((handleSuccess paySt (some "ORD_1") (some "PAY_9") (some "forged") none).2.orders.map
      Order.paymentStatus) = ["captured"] :=
  ⟨rfl, rfl, rfl, rfl⟩

/-- C3 (code evaluated at the failing input): the mock success path
completes the order, records the paymentId and attempts exactly one
confirmation to the owning user, but returns its page before the
session-update step, so the session stays at awaiting_payment instead of
moving to completed as the claim states. -/
theorem C3_mock_payment_effects :
    ((handleSuccess paySt (some "ORD_1") (some "PAY_9") none (some "true")).2.orders.map
      Order.status) = ["completed"] ∧
    ((handleSuccess paySt (some "ORD_1") (some "PAY_9") none (some "true")).2.orders.map
      Order.paymentStatus) = ["captured"] ∧
    ((handleSuccess paySt (some "ORD_1") (some "PAY_9") none (some "true")).2.orders.map
      Order.paymentId) = [some "PAY_9"] ∧
    ((handleSuccess paySt (some "ORD_1") (some "PAY_9") none (some "true")).2.sent.map
      Prod.fst) = ["919876543210"] ∧
    (handleSuccess paySt (some "ORD_1") (some "PAY_9") none (some "true")).2.sessions =
      paySt.sessions ∧
    (findSessionByWhatsappId
      (handleSuccess paySt (some "ORD_1") (some "PAY_9") none (some "true")).2
      "919876543210").map Session.step = some (some "awaiting_payment") :=
  ⟨rfl, rfl, rfl, rfl, rfl, rfl⟩

end ServiceBot

namespace ServiceBot

/-- C4: every webhook POST body is acknowledged with HTTP 200 and the
body "EVENT_RECEIVED", including bodies whose processing raises; and a
malformed body (entry missing or not an array) leaves the whole state
untouched: no storage mutation and no outbound send. -/
theorem C4_ack_always (cfg : Config) (st : St) (body : Json) :
    (handleWebhook cfg st body).1 = { status := 200, body := "EVENT_RECEIVED" } ∧
    ((∀ es, jsOptChain body "entry" ≠ some (Json.arr es)) →
      (handleWebhook cfg st body).2 = st) := by
  constructor
  · rcases hE : jsOptChain body "entry" with _ | j
    · simp [handleWebhook, hE]
    · cases j with
      | arr es =>
        cases hP : processEntries cfg st es with
        | ok st1 => simp [handleWebhook, hE, hP]
        | error st1 => simp [handleWebhook, hE, hP]
      | null => simp [handleWebhook, hE]
      | bool b => simp [handleWebhook, hE]
      | num n => simp [handleWebhook, hE]
      | str s => simp [handleWebhook, hE]
      | obj kvs => simp [handleWebhook, hE]
  · intro hm
    rcases hE : jsOptChain body "entry" with _ | j
    · simp [handleWebhook, hE]
    · cases j with
      | arr es => exact absurd hE (hm es)
      | null => simp [handleWebhook, hE]
      | bool b => simp [handleWebhook, hE]
      | num n => simp [handleWebhook, hE]
      | str s => simp [handleWebhook, hE]
      | obj kvs => simp [handleWebhook, hE]

/-- C4 witness: the empty-object body is acknowledged and has no effect. -/
theorem C4_witness :
    (handleWebhook cfg0 emptySt (Json.obj [])).1 =
      { status := 200, body := "EVENT_RECEIVED" } ∧
    (handleWebhook cfg0 emptySt (Json.obj [])).2 = emptySt := by
  refine ⟨(C4_ack_always cfg0 emptySt (Json.obj [])).1,
    (C4_ack_always cfg0 emptySt (Json.obj [])).2 ?_⟩
  intro es h
  exact Option.noConfusion h

/-- C5 (amended): every nonempty orderId matching no stored order makes
the success handler answer 404 Order not found with the state, hence all
three collections, returned unchanged. -/
theorem C5_unknown_order (st : St) (oid : String) (paymentId signature mock : Option String)
    (h1 : oid ≠ "") (h2 : findOrderByOrderId st oid = none) :
    handleSuccess st (some oid) paymentId signature mock =
      (HttpResp.json 404 "Order not found", st) := by
  have ht : truthyStr (some oid) = true := by
    simp [truthyStr, h1]
  simp [handleSuccess, ht, h2]

/-- C5 witness: an orderId absent from the store yields 404 untouched. -/
theorem C5_witness :
    handleSuccess paySt (some "ORD_MISSING") none none none =
      (HttpResp.json 404 "Order not found", paySt) :=
  C5_unknown_order paySt "ORD_MISSING" none none none (by decide) rfl

/-- C5 (counterexample): the empty orderId matches no stored order, but
JavaScript treats it as falsy, so the handler answers 400 Missing
orderId, not the claimed 404. -/
theorem C5_cex :
    emptySt.orders = [] ∧
    (handleSuccess emptySt (some "") none none none).1 =
      HttpResp.json 400 "Missing orderId" ∧
    (handleSuccess emptySt (some "") none none none).1.statusCode ≠ 404 :=
  ⟨rfl, rfl, (by decide : (400 : Nat) ≠ 404)⟩

/-- C6: flow completion for a user with no stored session sends exactly
one session-expired text to that user and the state is otherwise
untouched: zero orders created, no session mutated. -/
theorem C6_no_session (cfg : Config) (st : St) (uid : String) (tok fd : Json)
    (h : findSessionByWhatsappId st uid = none) :
    handleFlowCompletion cfg st uid tok fd =
      { st with sent := st.sent ++
          [(uid, textPayload "Session expired. Please start over by sending \"hi\".")] } := by
  unfold handleFlowCompletion
  rw [h]
  rfl

/-- C6 witness: completion with an empty store sends only the expiry text. -/
theorem C6_witness :
    handleFlowCompletion cfg0 emptySt "919876543210" Json.null Json.null =
      { emptySt with sent :=
          [("919876543210", textPayload "Session expired. Please start over by sending \"hi\".")] } :=
  C6_no_session cfg0 emptySt "919876543210" Json.null Json.null rfl

/-- C7: with a configured secret, verification echoes the challenge with
HTTP 200 iff the mode is "subscribe" and the token equals the secret
exactly; every other combination yields 403 with no body. The gate is a
pure function of its query triple, so repeated identical calls agree. -/
theorem C7_verify_gate (secret : String) (mode token challenge : Option String) :
    (((verify (some secret) mode token challenge).status = 200 ∧
      (verify (some secret) mode token challenge).body = challenge) ↔
      (mode = some "subscribe" ∧ token = some secret)) ∧
    (¬ (mode = some "subscribe" ∧ token = some secret) →
      verify (some secret) mode token challenge = { status := 403, body := none }) := by
  by_cases hc : mode = some "subscribe" ∧ token = some secret
  · constructor
    · simp [verify, hc]
    · intro hn
      exact absurd hc hn
  · constructor
    · simp [verify, hc]
    · intro _
      simp [verify, hc]

/-- C7 witness: a wrong token is rejected with 403. -/
theorem C7_witness :
    verify (some "my_secret") (some "subscribe") (some "wrong") (some "12345") =
      { status := 403, body := none } :=
  (C7_verify_gate "my_secret" (some "subscribe") (some "wrong") (some "12345")).2 (by decide)

/-- C8 (counterexample): "constructor" is not one of the four service
names, yet the bracket lookup finds the inherited truthy
Object.prototype member, so getServiceAmount does not return the claimed
100 fallback there. -/
theorem C8_cex :
    getServiceAmount "constructor" = JsAmount.protoMember "constructor" ∧
    getServiceAmount "constructor" ≠ JsAmount.num 100 :=
  ⟨rfl, by decide⟩

/-- C8 (amended): getServiceAmount is total and deterministic: the four
known service names map to their fixed prices; any other input that is
not a member name inherited from Object.prototype maps to the 100
fallback; an inherited member name maps to that truthy inherited member
instead of 100. The function is total into JsAmount, which has no
null/undefined constructor, so it never throws and never yields null or
undefined. -/
theorem C8_price_table :
    getServiceAmount "8A Form" = JsAmount.num 500 ∧
    getServiceAmount "7/12 Form" = JsAmount.num 300 ∧
    getServiceAmount "Ferfar" = JsAmount.num 400 ∧
    getServiceAmount "Property Card" = JsAmount.num 250 ∧
    (∀ s : String, s ≠ "8A Form" → s ≠ "7/12 Form" → s ≠ "Ferfar" →
      s ≠ "Property Card" → s ∉ objectProtoMembers →
      getServiceAmount s = JsAmount.num 100) ∧
    (∀ s : String, s ∈ objectProtoMembers →
      getServiceAmount s = JsAmount.protoMember s) := by
  refine ⟨rfl, rfl, rfl, rfl, ?_, ?_⟩
  · intro s h1 h2 h3 h4 h5
    simp [getServiceAmount, h1, h2, h3, h4, h5]
  · intro s hs
    have hall : ∀ x ∈ objectProtoMembers, x ≠ "8A Form" ∧ x ≠ "7/12 Form" ∧
        x ≠ "Ferfar" ∧ x ≠ "Property Card" := by decide
    obtain ⟨h1, h2, h3, h4⟩ := hall s hs
    simp [getServiceAmount, h1, h2, h3, h4, hs]

/-- C8 witness: an unrecognized plain name gets the fallback price, and
an inherited member name gets the inherited member. -/
theorem C8_witness :
    getServiceAmount "Unknown Service" = JsAmount.num 100 ∧
    getServiceAmount "toString" = JsAmount.protoMember "toString" :=
  ⟨C8_price_table.2.2.2.2.1 "Unknown Service"
      (by decide) (by decide) (by decide) (by decide) (by decide),
    C8_price_table.2.2.2.2.2 "toString" (by decide)⟩

/-- C9: the failure handler overwrites the matching order to
failed/failed with no terminal-state guard: the hypotheses allow any
stored order, including one already completed with a captured payment. -/
theorem C9_overwrite (st : St) (oid : String) (o : Order)
    (h1 : oid ≠ "") (h2 : findOrderByOrderId st oid = some o) :
    ∃ o2, findOrderByOrderId ((handleFailure st (some oid)).2) oid = some o2 ∧
      o2.status = "failed" ∧ o2.paymentStatus = "failed" ∧
      o2.id = o.id ∧ o2.whatsappId = o.whatsappId ∧ o2.amount = o.amount := by
  have ht : truthyStr (some oid) = true := by
    simp [truthyStr, h1]
  have hupd : findOrderByOrderId (updateOrder st oid
      { status := some "failed", paymentStatus := some "failed", failedAt := some st.now })
      oid = some (o.applyPatch
        { status := some "failed", paymentStatus := some "failed", failedAt := some st.now }
        st.now) := by
    unfold findOrderByOrderId updateOrder
    rw [find?_updateFirst (fun a => a.orderId == oid) _ st.orders
      (by intro a ha; simpa [Order.applyPatch] using ha)]
    unfold findOrderByOrderId at h2
    rw [h2]
    rfl
  refine ⟨o.applyPatch
    { status := some "failed", paymentStatus := some "failed", failedAt := some st.now }
    st.now, ?_, rfl, rfl, rfl, rfl, rfl⟩
  unfold handleFailure
  simp only [ht, if_true, Option.getD_some]
  rw [hupd]
  exact hupd

/-- C9 witness: a completed, captured order is overwritten to failed. -/
theorem C9_witness :
    ∃ o2, findOrderByOrderId ((handleFailure c9St (some "ORD_1")).2) "ORD_1" = some o2 ∧
      o2.status = "failed" ∧ o2.paymentStatus = "failed" ∧
      o2.id = completedOrder.id ∧ o2.whatsappId = completedOrder.whatsappId ∧
      o2.amount = completedOrder.amount :=
  C9_overwrite c9St "ORD_1" completedOrder (by decide) rfl

/-- C10: every order returned by createOrder has status pending,
paymentStatus pending and both timestamps freshly stamped from the
clock, whatever values the caller supplied for those fields in the order
data (the literals are applied after the spread and override them). -/
theorem C10_create_defaults (st : St) (d : OrderData) :
    (createOrder st d).1.status = "pending" ∧
    (createOrder st d).1.paymentStatus = "pending" ∧
    (createOrder st d).1.createdAt = st.now ∧
    (createOrder st d).1.updatedAt = st.now :=
  ⟨rfl, rfl, rfl, rfl⟩

end ServiceBot
